import Mathlib

/-!
Shallow embedding of the `poolcli` refund subsystem:
`src/poolcli/core/refund_manager.py` (class `RefundManager`) and
`src/poolcli/cli/refund.py` (commands `start`, `list`, `get`).

External collaborators (the HTTP client, the key manager, the auth service,
the wall clock and the standard-library timestamp parser) are passed in as
explicit arguments: each operation receives the outcome that the collaborator
would have produced (`Except PyExn …` for a call that can raise) and returns,
next to its own result, the trace of observable effects (backend requests and
console output) in the order the Python code performs them.

Timestamps are modelled as instants on a single timeline (seconds, `Int`).
`datetime.fromisoformat` becomes a parameter `parse : String → Option Int`
returning the parsed instant, `none` on a `ValueError`; `datetime.now(tz)`
denotes the same instant for every `tz` (and the naive/naive comparison is a
comparison of wall-clock values read in one fixed zone), so the current time
is a single parameter `now : Int` and `timedelta(days=30)` is `30 * 86400`
seconds.
-/

namespace PoolCli

/-- A developer key record as consumed by `create_refund_invoice`: the code
reads `key["keyId"]`, `key["apiKey"]` and `key.get("updatedAt", "")`;
`updatedAt` is optional (dict `.get` with default `""`). -/
structure DevKey where
  keyId : String
  apiKey : String
  updatedAt : Option String
  deriving DecidableEq

/-- The nested `invoice` object of a refund record: the CLI reads
`invoice.get("amountDue", …)`, `invoice.get("createdAt", "N/A")`,
`invoice.get("updatedAt", "N/A")`. -/
structure Invoice where
  amountDue : Option Int
  createdAt : Option String
  updatedAt : Option String
  deriving DecidableEq

/-- The empty dict `{}` used as the default for `…​.get("invoice", {})`. -/
def Invoice.empty : Invoice := ⟨none, none, none⟩

/-- A refund record as returned in a response `data` field: the CLI reads
`refundId`, `status` and the nested `invoice`. -/
structure RefundData where
  refundId : Option String
  status : Option String
  invoice : Option Invoice
  deriving DecidableEq

/-- The empty dict `{}`, default of `response.get("data", {})`. -/
def RefundData.empty : RefundData := ⟨none, none, none⟩

/-- Python truthiness of the refund dict (`if refund_response:`), restricted
to the modelled fields: an empty dict is falsy, a dict with any field truthy. -/
def RefundData.isTruthy (d : RefundData) : Bool :=
  d.refundId.isSome || d.status.isSome || d.invoice.isSome

/-- An invoice row of the paginated list endpoint, as consumed by
`display_refund_list` (all four fields read with `.get` and a default). -/
structure InvoiceRec where
  refundId : Option String
  amountDue : Option Int
  status : Option String
  createdAt : Option String
  deriving DecidableEq

/-- The pagination envelope: `pagination.get("page", 1)`,
`pagination.get("totalPages", 1)`. -/
structure Pagination where
  page : Option Nat
  totalPages : Option Nat
  deriving DecidableEq

/-- The empty dict `{}`, default of `response["data"].get("pagination", {})`. -/
def Pagination.empty : Pagination := ⟨none, none⟩

/-- Exceptions a collaborator call can raise: `requests.RequestException`
(transport), `KeyError` from indexing a dict, or any other exception. -/
inductive PyExn
  | requestException (msg : String)
  | keyError (key : String)
  | otherError (msg : String)
  deriving DecidableEq

/-- `str(e)` for a raised exception (Python renders `KeyError("k")` as `'k'`). -/
def PyExn.msg : PyExn → String
  | .requestException m => m
  | .keyError k => "'" ++ k ++ "'"
  | .otherError m => m

/-- The application exceptions of `poolcli.exceptions` raised by
`RefundManager` and caught at the command boundary. -/
inductive AppExn
  | apiError (msg : String)
  | refundError (msg : String)
  | authenticationError (msg : String)
  deriving DecidableEq

/-- `str(e)` for an application exception: its message. -/
def AppExn.str : AppExn → String
  | .apiError m => m
  | .refundError m => m
  | .authenticationError m => m

/-- Whether a result is an `APIError` (the "network/API error" kind). -/
def isApiErrorResult {α : Type} : Except AppExn α → Bool
  | .error (.apiError _) => true
  | _ => false

/-- The named backend routes of `apiRoutes.refund` in
`poolcli/core/constants` (named routes, not literal paths). -/
inductive Route
  | createRefundInvoice
  | listRefundInvoices
  | getRefundDetails
  deriving DecidableEq

/-- One observable effect: a backend request, the interactive choice prompt,
or a console print, in program order. -/
inductive Event
  | listKeysReq (page limit : Nat) (status : String)
  | apiReq (route : Route) (pathSuffix : String) (method : String)
      (payload : List (String × String)) (params : List (String × Nat))
  | promptChoice (options : List String)
  | consoleHeader (s : String)
  | consoleWarning (s : String)
  | consoleError (s : String)
  | consoleSuccess (s : String)
  | consoleInfo (s : String)
  | consoleTable (rows : List (List String))
  | consolePrintTable (title : String) (lines : List String)
  deriving DecidableEq

/-- Python `s.replace(pattern, replacement)` on char lists: replace each
non-overlapping occurrence left to right. Fuel-structured (fuel = remaining
length) so it reduces by evaluation; the fuel is exact for the nonempty
patterns used by the source (`"Z"`). -/
def pyReplaceAux : Nat → List Char → List Char → List Char → List Char
  | _, _, _, [] => []
  | 0, _, _, s => s
  | fuel + 1, p, r, c :: cs =>
    if p.isPrefixOf (c :: cs) then
      r ++ pyReplaceAux fuel p r (List.drop p.length (c :: cs))
    else
      c :: pyReplaceAux fuel p r cs

/-- Python `s.replace(pattern, replacement)`. -/
def pyReplace (s pattern replacement : String) : String :=
  ⟨pyReplaceAux s.data.length pattern.data replacement.data s.data⟩

/-- Python `s[:n]` (slice of the first `n` characters). -/
def pySlice (s : String) (n : Nat) : String :=
  ⟨s.data.take n⟩

/-- Python `s.upper()`, character by character (the status strings handled
here are ASCII). -/
def pyUpper (s : String) : String :=
  ⟨s.data.map Char.toUpper⟩

/-- `RefundManager._is_older_than_one_month`:
parse `updated_at.replace("Z", "+00:00")`; on success compare
`updated_date < datetime.now(updated_date.tzinfo) - timedelta(days=30)`;
on a parse failure (`ValueError`/`TypeError`) return `False`. -/
def isOlderThanOneMonth (parse : String → Option Int) (now : Int)
    (updated_at : String) : Bool :=
  match parse (pyReplace updated_at "Z" "+00:00") with
  | some updated_date => decide (updated_date < now - 30 * 86400)
  | none => false

/-- The list-comprehension filter of `create_refund_invoice`:
`[key for key in expired_keys if self._is_older_than_one_month(key.get("updatedAt", ""))]`. -/
def eligibleKeys (parse : String → Option Int) (now : Int)
    (keys : List DevKey) : List DevKey :=
  keys.filter (fun key => isOlderThanOneMonth parse now (key.updatedAt.getD ""))

/-- A parsed response envelope: a dict that may carry a `data` field. -/
structure ApiResponse (α : Type) where
  data : Option α
  deriving DecidableEq

/-- The `data` field of the list endpoint: nested `data` list and
`pagination`, both read with `.get` and a default. -/
structure ListData where
  data : Option (List InvoiceRec)
  pagination : Option Pagination
  deriving DecidableEq

/-- The result dict of `list_refund_invoices`:
`{"refunds": …, "pagination": …}`. -/
structure ListResult where
  refunds : List InvoiceRec
  pagination : Pagination
  deriving DecidableEq

/-- The `except` clauses of `create_refund_invoice`:
`requests.RequestException` → `APIError`, any other exception →
`RefundError` with the duplicate-invoice hint. -/
def classifyCreate (e : PyExn) : AppExn :=
  match e with
  | .requestException m => .apiError ("Request failed: " ++ m)
  | e =>
    .refundError ("Error creating refund invoice: " ++ e.msg
      ++ ". Check if you have already created invoice for this key.")

/-- The `except` clauses of `list_refund_invoices`. -/
def classifyList (e : PyExn) : AppExn :=
  match e with
  | .requestException m => .apiError ("API request failed: " ++ m)
  | e => .refundError ("Error listing refunds: " ++ e.msg)

/-- The single `except Exception` clause of `get_refund_details`: every
exception, transport-level included, becomes a `RefundError`. -/
def classifyGet (e : PyExn) : AppExn :=
  .refundError ("Error fetching refund details: " ++ e.msg)

/-- `RefundManager.create_refund_invoice(token)`.

Inputs beyond the token: the outcome of
`KeyManager.list_developer_keys(token, page=1, limit=100, status="expired")`
already projected to its `"keys"` field, the index returned by the
interactive `choice` prompt, and the outcome of the `create_request` POST.
Returns the Python return value (`None` on the two empty paths, else the
response `data`) or the raised application exception, with the effect trace. -/
def createRefundInvoice (parse : String → Option Int) (now : Int)
    (token : String) (listOutcome : Except PyExn (List DevKey))
    (choiceIdx : Nat) (apiOutcome : Except PyExn (ApiResponse RefundData)) :
    Except AppExn (Option RefundData) × List Event :=
  let listReq := Event.listKeysReq 1 100 "expired"
  match listOutcome with
  | .error e => (.error (classifyCreate e), [listReq])
  | .ok expired_keys =>
    if expired_keys.length = 0 then
      (.ok none, [listReq])
    else
      let eligible_keys := eligibleKeys parse now expired_keys
      if eligible_keys.length = 0 then
        (.ok none,
         [listReq, .consoleWarning "No expired keys older than 1 month found."])
      else
        let pre := [listReq,
          Event.consoleHeader "Expired Developer Keys - Available for Refund",
          Event.promptChoice (eligible_keys.map (fun key => key.apiKey))]
        match eligible_keys[choiceIdx]? with
        | none =>
          (.error (classifyCreate (.otherError "list index out of range")), pre)
        | some selected_key =>
          let payload := [("keyId", selected_key.keyId)]
          let tr := pre
            ++ [Event.apiReq .createRefundInvoice "" "POST" payload []]
          match apiOutcome with
          | .error e => (.error (classifyCreate e), tr)
          | .ok response =>
            let tr2 := tr
              ++ [Event.consoleSuccess "✅ Refund Invoice created successfully!"]
            match response.data with
            | none => (.error (classifyCreate (.keyError "data")), tr2)
            | some d => (.ok (some d), tr2)

/-- `RefundManager.list_refund_invoices(token, page, limit)`:
pass-through paginated GET; `response["data"]` indexing may raise `KeyError`,
then nested `.get("data", [])` and `.get("pagination", {})`. -/
def listRefundInvoices (token : String) (page limit : Nat)
    (apiOutcome : Except PyExn (ApiResponse ListData)) :
    Except AppExn ListResult × List Event :=
  let req := Event.apiReq .listRefundInvoices "" "GET" []
    [("page", page), ("limit", limit)]
  match apiOutcome with
  | .error e => (.error (classifyList e), [req])
  | .ok response =>
    match response.data with
    | none => (.error (classifyList (.keyError "data")), [req])
    | some d => (.ok ⟨d.data.getD [], d.pagination.getD Pagination.empty⟩, [req])

/-- `RefundManager.get_refund_details(token, refund_id)`: GET on
`GET_REFUND_DETAILS/{refund_id}`, returning `response.get("data", {})`;
every exception becomes a `RefundError`. -/
def getRefundDetails (token refund_id : String)
    (apiOutcome : Except PyExn (ApiResponse RefundData)) :
    Except AppExn RefundData × List Event :=
  let req := Event.apiReq .getRefundDetails ("/" ++ refund_id) "GET" [] []
  match apiOutcome with
  | .error e => (.error (classifyGet e), [req])
  | .ok response => (.ok (response.data.getD RefundData.empty), [req])

/-- One table row of `display_refund_list`:
`refund.get("refundId", "N/A")`, `str(refund.get("amountDue", 5))`,
`refund.get("status", "unknown").upper()`, `refund.get("createdAt", "N/A")[:19]`. -/
def refundRow (refund : InvoiceRec) : List String :=
  [refund.refundId.getD "N/A",
   toString (refund.amountDue.getD 5),
   pyUpper (refund.status.getD "unknown"),
   pySlice (refund.createdAt.getD "N/A") 19]

/-- `RefundManager.display_refund_list(refunds, pagination)`: on an empty
list warn and return; otherwise print the table and the pagination line. -/
def displayRefundList (refunds : List InvoiceRec)
    (pagination : Pagination) : List Event :=
  if refunds.isEmpty then
    [.consoleWarning "No refund invoices found."]
  else
    [.consoleTable (refunds.map refundRow),
     .consoleInfo ("Page " ++ toString (pagination.page.getD 1) ++ " of "
       ++ toString (pagination.totalPages.getD 1))]

/-- Python `f"{s:<20}"`: left-justify in a field of `w` characters. -/
def ljust (s : String) (w : Nat) : String :=
  s ++ ⟨List.replicate (w - s.length) ' '⟩

/-- The `start` command of `cli/refund.py`.

`wallet_name` is consumed by the auth collaborator; `token` is the token it
returned (the empty string models a falsy token). On a non-empty token the
command runs `create_refund_invoice` and then evaluates
`refund_response.get("invoice", {})` BEFORE the `if refund_response:` check:
when the orchestrator returned `None`, that attribute access raises
`AttributeError`, which the trailing `except Exception` clause renders as an
"Unexpected error" message. -/
def startCmd (parse : String → Option Int) (now : Int)
    (wallet_name token : String) (listOutcome : Except PyExn (List DevKey))
    (choiceIdx : Nat) (apiOutcome : Except PyExn (ApiResponse RefundData)) :
    List Event :=
  let hdr := Event.consoleHeader "💸 Creating refund invoice for developer key"
  if token.isEmpty then
    [hdr, .consoleError "Authentication required."]
  else
    let res := createRefundInvoice parse now token listOutcome choiceIdx apiOutcome
    match res.1 with
    | .error e => hdr :: res.2 ++ [.consoleError e.str]
    | .ok none =>
      hdr :: res.2
        ++ [.consoleError "Unexpected error: 'NoneType' object has no attribute 'get'"]
    | .ok (some refund_response) =>
      let refund_invoice := refund_response.invoice.getD Invoice.empty
      let amount := refund_invoice.amountDue.getD 5
      if refund_response.isTruthy then
        hdr :: res.2
          ++ [.consoleSuccess "✅ Refund invoice created successfully!",
              .consolePrintTable "Refund Invoice Details"
                ["ID: " ++ refund_response.refundId.getD "N/A",
                 "Amount: " ++ toString amount ++ " TAO",
                 "Status: " ++ pyUpper (refund_response.status.getD "unknown")]]
      else
        hdr :: res.2
          ++ [.consoleWarning
               "No refund invoice returned. See if your developer key is expired or not."]

/-- The `list` command of `cli/refund.py`. -/
def listCmd (wallet_name token : String) (page limit : Nat)
    (apiOutcome : Except PyExn (ApiResponse ListData)) : List Event :=
  let hdr := Event.consoleHeader
    ("📜 Listing refunds for wallet '" ++ wallet_name ++ "'")
  if token.isEmpty then
    [hdr, .consoleError "Authentication required."]
  else
    let res := listRefundInvoices token page limit apiOutcome
    match res.1 with
    | .error e => hdr :: res.2 ++ [.consoleError e.str]
    | .ok r => hdr :: res.2 ++ displayRefundList r.refunds r.pagination

/-- The `get` command of `cli/refund.py`: fetch details and print the four
field lines, each label left-justified to 20 characters, each value read
with `.get` and its fallback. -/
def getCmd (refund_id wallet_name token : String)
    (apiOutcome : Except PyExn (ApiResponse RefundData)) : List Event :=
  let hdr := Event.consoleHeader ("🔍 Fetching refund details: " ++ refund_id)
  if token.isEmpty then
    [hdr, .consoleError "Authentication required."]
  else
    let res := getRefundDetails token refund_id apiOutcome
    match res.1 with
    | .error e => hdr :: res.2 ++ [.consoleError e.str]
    | .ok refund_details =>
      let invoice := refund_details.invoice.getD Invoice.empty
      hdr :: res.2
        ++ [.consolePrintTable ("Refund " ++ refund_id)
             [ljust "Status:" 20 ++ " "
                ++ pyUpper (refund_details.status.getD "unknown"),
              ljust "Amount:" 20 ++ " "
                ++ toString (invoice.amountDue.getD 0) ++ " TAO",
              ljust "Created:" 20 ++ " " ++ invoice.createdAt.getD "N/A",
              ljust "Updated:" 20 ++ " " ++ invoice.updatedAt.getD "N/A"]]

/-! ## Claim theorems -/

/-- A concrete instantiation of the timestamp-parser parameter, used to
evaluate the definitions at concrete inputs: a finite table of ISO-like
strings and their instants (seconds). Everything else fails to parse. -/
def demoParse (s : String) : Option Int :=
  if s = "2020-01-01T00:00:00" then some 0
  else if s = "2020-01-31T00:00:00" then some (30 * 86400)
  else if s = "2020-01-01T00:00:00+00:00" then some 0
  else none

/-- C5: for every developer-key listing result containing zero "expired"
entries, `create_refund_invoice` returns empty (`None`, not an error) and
its whole effect trace is the single key-listing request — in particular it
issues no invoice-creation request to the backend. -/
theorem c5_no_expired_keys (parse : String → Option Int) (now : Int)
    (token : String) (choiceIdx : Nat)
    (apiOutcome : Except PyExn (ApiResponse RefundData)) :
    createRefundInvoice parse now token (.ok []) choiceIdx apiOutcome
      = (.ok none, [Event.listKeysReq 1 100 "expired"]) := rfl

/-- C7: `display_refund_list` on an empty list emits exactly the
"No refund invoices found." warning and constructs no table; and an empty
`list_refund_invoices` result is a valid `.ok` value, not an error. -/
theorem c7_empty_list_is_warning_not_table (pagination : Pagination)
    (token : String) (page limit : Nat) (pag : Pagination) :
    displayRefundList [] pagination
        = [Event.consoleWarning "No refund invoices found."]
    ∧ (∀ rows, Event.consoleTable rows ∉ displayRefundList [] pagination)
    ∧ (listRefundInvoices token page limit (.ok ⟨some ⟨some [], some pag⟩⟩)).1
        = .ok ⟨[], pag⟩ := by
  refine ⟨rfl, ?_, rfl⟩
  intro rows h
  simp [displayRefundList] at h

/-- C8: every command (`start`, `list`, `get`) given an empty (falsy) token
prints its header, then the "Authentication required." error, and stops:
the trace contains no backend request and no orchestrator effect. -/
theorem c8_empty_token_short_circuits (parse : String → Option Int)
    (now : Int) (wallet rid : String)
    (listOutcome : Except PyExn (List DevKey)) (choiceIdx : Nat)
    (apiOutcome : Except PyExn (ApiResponse RefundData))
    (page limit : Nat) (lApi : Except PyExn (ApiResponse ListData))
    (gApi : Except PyExn (ApiResponse RefundData)) :
    startCmd parse now wallet "" listOutcome choiceIdx apiOutcome
        = [Event.consoleHeader "💸 Creating refund invoice for developer key",
           Event.consoleError "Authentication required."]
    ∧ listCmd wallet "" page limit lApi
        = [Event.consoleHeader
             ("📜 Listing refunds for wallet '" ++ wallet ++ "'"),
           Event.consoleError "Authentication required."]
    ∧ getCmd rid wallet "" gApi
        = [Event.consoleHeader ("🔍 Fetching refund details: " ++ rid),
           Event.consoleError "Authentication required."] :=
  ⟨rfl, rfl, rfl⟩

/-- C3 (code bug): when `create_refund_invoice` returns empty — zero expired
keys, or zero eligible keys — the `start` command does NOT warn: the line
`refund_invoice = refund_response.get("invoice", {})` runs before the
`if refund_response:` truthiness check, raises `AttributeError` on `None`,
and the command boundary renders it as an error-classified
"Unexpected error" message. The intended warning branch
(`"No refund invoice returned. …"`) is unreachable on this path. -/
theorem c3_start_errors_on_empty_create :
    startCmd demoParse 0 "alice" "tok" (.ok []) 0 (.ok ⟨none⟩)
        = [Event.consoleHeader "💸 Creating refund invoice for developer key",
           Event.listKeysReq 1 100 "expired",
           Event.consoleError
             "Unexpected error: 'NoneType' object has no attribute 'get'"]
    ∧ startCmd demoParse 0 "alice" "tok"
          (.ok [⟨"k1", "pk1", some "not-a-date"⟩]) 0 (.ok ⟨none⟩)
        = [Event.consoleHeader "💸 Creating refund invoice for developer key",
           Event.listKeysReq 1 100 "expired",
           Event.consoleWarning "No expired keys older than 1 month found.",
           Event.consoleError
             "Unexpected error: 'NoneType' object has no attribute 'get'"] := by
  constructor <;> rfl

/-- C4 counterexample: a transport-level failure
(`requests.RequestException`) inside `get_refund_details` is NOT reported as
the "network/API error" kind — it is swallowed by the single
`except Exception` clause and reported as a `RefundError`. -/
theorem c4_get_conflates_transport_failures :
    (getRefundDetails "tok" "r1"
        (.error (.requestException "connection refused"))).1
      = .error (.refundError "Error fetching refund details: connection refused")
    ∧ isApiErrorResult
        (getRefundDetails "tok" "r1"
          (.error (.requestException "connection refused"))).1 = false :=
  ⟨rfl, rfl⟩

/-- C4 (amended): `create_refund_invoice` and `list_refund_invoices` report
transport-level failures as `APIError` and every other failure as
`RefundError` (with the duplicate-invoice hint on the create path), while
`get_refund_details` reports EVERY failure, transport-level included, as
`RefundError`. -/
theorem c4_error_kinds (m : String) (e : PyExn) (token rid : String)
    (page limit : Nat) (parse : String → Option Int) (now : Int)
    (choiceIdx : Nat) (apiOutcome : Except PyExn (ApiResponse RefundData))
    (he : ∀ s, e ≠ .requestException s) :
    (createRefundInvoice parse now token (.error (.requestException m))
          choiceIdx apiOutcome).1
        = .error (.apiError ("Request failed: " ++ m))
    ∧ classifyCreate e
        = .refundError ("Error creating refund invoice: " ++ e.msg
            ++ ". Check if you have already created invoice for this key.")
    ∧ (listRefundInvoices token page limit
          (.error (.requestException m))).1
        = .error (.apiError ("API request failed: " ++ m))
    ∧ (listRefundInvoices token page limit (.error e)).1
        = .error (.refundError ("Error listing refunds: " ++ e.msg))
    ∧ (getRefundDetails token rid (.error (.requestException m))).1
        = .error (.refundError ("Error fetching refund details: " ++ m))
    ∧ (getRefundDetails token rid (.error e)).1
        = .error (.refundError ("Error fetching refund details: " ++ e.msg)) := by
  refine ⟨rfl, ?_, rfl, ?_, rfl, rfl⟩ <;>
    cases e with
    | requestException s => exact absurd rfl (he s)
    | keyError k => rfl
    | otherError s => rfl

/-- Witness for `c4_error_kinds` at a concrete non-transport exception. -/
theorem c4_error_kinds_witness :
    (createRefundInvoice demoParse 0 "tok"
          (.error (.requestException "boom")) 0 (.ok ⟨none⟩)).1
        = .error (.apiError "Request failed: boom")
    ∧ classifyCreate (.keyError "data")
        = .refundError ("Error creating refund invoice: 'data'"
            ++ ". Check if you have already created invoice for this key.")
    ∧ (listRefundInvoices "tok" 1 15 (.error (.requestException "boom"))).1
        = .error (.apiError "API request failed: boom")
    ∧ (listRefundInvoices "tok" 1 15 (.error (.keyError "data"))).1
        = .error (.refundError "Error listing refunds: 'data'")
    ∧ (getRefundDetails "tok" "r1" (.error (.requestException "boom"))).1
        = .error (.refundError "Error fetching refund details: boom")
    ∧ (getRefundDetails "tok" "r1" (.error (.keyError "data"))).1
        = .error (.refundError "Error fetching refund details: 'data'") :=
  c4_error_kinds "boom" (.keyError "data") "tok" "r1" 1 15 demoParse 0 0
    (.ok ⟨none⟩) (fun s h => PyExn.noConfusion h)

/-- C1: an expired key is in the selectable eligible set of
`create_refund_invoice` iff its `updatedAt` (after the `"Z" → "+00:00"`
rewrite) parses and the parsed instant is strictly earlier than
now − 30 days; in particular an expired key updated within the last
30 days is excluded. -/
theorem c1_eligibility_iff (parse : String → Option Int) (now : Int)
    (keys : List DevKey) (key : DevKey) (hk : key ∈ keys) :
    key ∈ eligibleKeys parse now keys ↔
      ∃ d, parse (pyReplace (key.updatedAt.getD "") "Z" "+00:00") = some d
        ∧ d < now - 30 * 86400 := by
  rw [eligibleKeys, List.mem_filter]
  constructor
  · rintro ⟨-, h⟩
    unfold isOlderThanOneMonth at h
    split at h
    · next d hd => exact ⟨d, hd, of_decide_eq_true h⟩
    · cases h
  · rintro ⟨d, hd, hlt⟩
    refine ⟨hk, ?_⟩
    unfold isOlderThanOneMonth
    rw [hd]
    exact decide_eq_true hlt

/-- Witness for `c1_eligibility_iff`: a key updated 31 days before `now`
is selected into the eligible set. -/
theorem c1_eligibility_iff_witness :
    (⟨"key-1", "pk-1", some "2020-01-01T00:00:00"⟩ : DevKey) ∈
      eligibleKeys demoParse (31 * 86400)
        [⟨"key-1", "pk-1", some "2020-01-01T00:00:00"⟩] :=
  (c1_eligibility_iff demoParse (31 * 86400) _ _
      (List.mem_singleton.mpr rfl)).mpr ⟨0, by decide, by decide⟩

/-- C2: the age check is total — whenever the (preprocessed) timestamp
fails to parse it evaluates to `false`, and a listing whose every key has an
unparsable timestamp makes `create_refund_invoice` return empty
(`.ok none`), never an error: a parse failure cannot abort the operation. -/
theorem c2_age_check_total :
    (∀ (parse : String → Option Int) (now : Int) (updated_at : String),
        parse (pyReplace updated_at "Z" "+00:00") = none →
        isOlderThanOneMonth parse now updated_at = false)
    ∧ (∀ (parse : String → Option Int) (now : Int) (token : String)
          (keys : List DevKey) (choiceIdx : Nat)
          (apiOutcome : Except PyExn (ApiResponse RefundData)),
        (∀ key ∈ keys,
            parse (pyReplace (key.updatedAt.getD "") "Z" "+00:00") = none) →
        (createRefundInvoice parse now token (.ok keys) choiceIdx
            apiOutcome).1 = .ok none) := by
  have hbase : ∀ (parse : String → Option Int) (now : Int) (s : String),
      parse (pyReplace s "Z" "+00:00") = none →
      isOlderThanOneMonth parse now s = false := by
    intro parse now s h
    unfold isOlderThanOneMonth
    rw [h]
  refine ⟨hbase, ?_⟩
  intro parse now token keys choiceIdx apiOutcome h
  have helig : eligibleKeys parse now keys = [] := by
    rw [eligibleKeys, List.filter_eq_nil_iff]
    intro k hkmem
    rw [hbase parse now _ (h k hkmem)]
    exact Bool.false_ne_true
  cases keys with
  | nil => rfl
  | cons a as => simp [createRefundInvoice, helig]

/-- Witness for `c2_age_check_total` at a malformed timestamp. -/
theorem c2_age_check_total_witness :
    isOlderThanOneMonth demoParse 0 "not-a-date" = false
    ∧ (createRefundInvoice demoParse 0 "tok"
          (.ok [⟨"k1", "pk1", some "not-a-date"⟩]) 0 (.ok ⟨none⟩)).1
        = .ok none :=
  ⟨c2_age_check_total.1 demoParse 0 "not-a-date" (by decide),
   c2_age_check_total.2 demoParse 0 "tok" [⟨"k1", "pk1", some "not-a-date"⟩]
     0 (.ok ⟨none⟩) (by decide)⟩

/-- The createdAt column exactly as the spec sentence describes it:
truncated to its first 19 characters when longer, unchanged when 19
characters or shorter, `"N/A"` when absent. -/
def createdAtSpec : Option String → String
  | none => "N/A"
  | some s => if s.length ≤ 19 then s else pySlice s 19

/-- C6: each displayed row is id with fallback `"N/A"`, amountDue with
fallback `5`, status uppercased with fallback `"unknown"`, and createdAt
exactly as `createdAtSpec` describes; the pagination line is
`"Page {page} of {totalPages}"` with both fields defaulting to 1. -/
theorem c6_render_rows (refunds : List InvoiceRec) (pagination : Pagination)
    (r : InvoiceRec) (hr : r ∈ refunds) :
    refundRow r
        = [r.refundId.getD "N/A", toString (r.amountDue.getD 5),
           pyUpper (r.status.getD "unknown"), createdAtSpec r.createdAt]
    ∧ Event.consoleTable (refunds.map refundRow)
        ∈ displayRefundList refunds pagination
    ∧ Event.consoleInfo ("Page " ++ toString (pagination.page.getD 1)
          ++ " of " ++ toString (pagination.totalPages.getD 1))
        ∈ displayRefundList refunds pagination := by
  have hne : refunds.isEmpty = false := by
    cases refunds with
    | nil => cases hr
    | cons a as => rfl
  refine ⟨?_, ?_, ?_⟩
  · unfold refundRow createdAtSpec
    cases hc : r.createdAt with
    | none => rfl
    | some s =>
      simp only [Option.getD_some]
      by_cases hlen : s.length ≤ 19
      · rw [if_pos hlen]
        have htake : s.data.take 19 = s.data :=
          List.take_of_length_le hlen
        simp only [pySlice, htake]
      · rw [if_neg hlen]
  · simp [displayRefundList, hne]
  · simp [displayRefundList, hne]

/-- Witness for `c6_render_rows`: a row with only a long `createdAt`
renders with every fallback and the 19-character truncation, and a concrete
pagination envelope renders "Page 2 of 3". -/
theorem c6_render_rows_witness :
    refundRow ⟨none, none, none, some "2020-01-01T00:00:00.123456+00:00"⟩
        = ["N/A", "5", "UNKNOWN", "2020-01-01T00:00:00"]
    ∧ Event.consoleTable [["N/A", "5", "UNKNOWN", "2020-01-01T00:00:00"]]
        ∈ displayRefundList
            [⟨none, none, none, some "2020-01-01T00:00:00.123456+00:00"⟩]
            ⟨some 2, some 3⟩
    ∧ Event.consoleInfo "Page 2 of 3"
        ∈ displayRefundList
            [⟨none, none, none, some "2020-01-01T00:00:00.123456+00:00"⟩]
            ⟨some 2, some 3⟩ :=
  c6_render_rows
    [⟨none, none, none, some "2020-01-01T00:00:00.123456+00:00"⟩]
    ⟨some 2, some 3⟩ _ (List.mem_singleton.mpr rfl)

/-- C9: on a successful run, `create_refund_invoice` lists keys with
page 1, limit 100, status "expired", and after the user picks the eligible
key at index `i` it issues exactly one POST to the create-refund-invoice
route whose payload is `{keyId: <that key's keyId>}`. -/
theorem c9_create_request_shape (parse : String → Option Int) (now : Int)
    (token : String) (keys : List DevKey) (i : Nat) (d : RefundData)
    (hi : i < (eligibleKeys parse now keys).length) :
    createRefundInvoice parse now token (.ok keys) i (.ok ⟨some d⟩)
      = (.ok (some d),
         [Event.listKeysReq 1 100 "expired",
          Event.consoleHeader "Expired Developer Keys - Available for Refund",
          Event.promptChoice
            ((eligibleKeys parse now keys).map (fun k => k.apiKey)),
          Event.apiReq .createRefundInvoice "" "POST"
            [("keyId", ((eligibleKeys parse now keys).get ⟨i, hi⟩).keyId)] [],
          Event.consoleSuccess "✅ Refund Invoice created successfully!"]) := by
  have hkeys : ¬ keys.length = 0 := by
    intro h0
    rw [List.length_eq_zero] at h0
    subst h0
    simp [eligibleKeys] at hi
  have helig : ¬ (eligibleKeys parse now keys).length = 0 := by omega
  simp only [createRefundInvoice, if_neg hkeys, if_neg helig,
    List.getElem?_eq_getElem hi, List.get_eq_getElem]
  rfl

/-- Witness for `c9_create_request_shape`: one eligible key, index 0. -/
theorem c9_create_request_shape_witness :
    createRefundInvoice demoParse (31 * 86400) "tok"
        (.ok [⟨"key-1", "pk-1", some "2020-01-01T00:00:00"⟩]) 0
        (.ok ⟨some ⟨some "r1", some "pending", none⟩⟩)
      = (.ok (some ⟨some "r1", some "pending", none⟩),
         [Event.listKeysReq 1 100 "expired",
          Event.consoleHeader "Expired Developer Keys - Available for Refund",
          Event.promptChoice ["pk-1"],
          Event.apiReq .createRefundInvoice "" "POST"
            [("keyId", "key-1")] [],
          Event.consoleSuccess "✅ Refund Invoice created successfully!"]) :=
  c9_create_request_shape demoParse (31 * 86400) "tok"
    [⟨"key-1", "pk-1", some "2020-01-01T00:00:00"⟩] 0
    ⟨some "r1", some "pending", none⟩ (by decide)

/-- C10: when the backend reply to `get_refund_details` lacks a `data`
field, the operation returns the empty record rather than raising, and the
`get` command renders every field through its fallback: status "UNKNOWN",
amount 0, timestamps "N/A". -/
theorem c10_missing_data_field (token rid wallet : String)
    (h : token.isEmpty = false) :
    (getRefundDetails token rid (.ok ⟨none⟩)).1 = .ok RefundData.empty
    ∧ getCmd rid wallet token (.ok ⟨none⟩)
      = [Event.consoleHeader ("🔍 Fetching refund details: " ++ rid),
         Event.apiReq .getRefundDetails ("/" ++ rid) "GET" [] [],
         Event.consolePrintTable ("Refund " ++ rid)
           [ljust "Status:" 20 ++ " UNKNOWN",
            ljust "Amount:" 20 ++ " 0 TAO",
            ljust "Created:" 20 ++ " N/A",
            ljust "Updated:" 20 ++ " N/A"]] := by
  refine ⟨rfl, ?_⟩
  unfold getCmd
  rw [h]
  rfl

/-- Witness for `c10_missing_data_field` at a concrete non-empty token. -/
theorem c10_missing_data_field_witness :
    (getRefundDetails "tok" "r1" (.ok ⟨none⟩)).1 = .ok RefundData.empty
    ∧ getCmd "r1" "alice" "tok" (.ok ⟨none⟩)
      = [Event.consoleHeader "🔍 Fetching refund details: r1",
         Event.apiReq .getRefundDetails "/r1" "GET" [] [],
         Event.consolePrintTable "Refund r1"
           [ljust "Status:" 20 ++ " UNKNOWN",
            ljust "Amount:" 20 ++ " 0 TAO",
            ljust "Created:" 20 ++ " N/A",
            ljust "Updated:" 20 ++ " N/A"]] :=
  c10_missing_data_field "tok" "r1" "alice" rfl

end PoolCli
